import Mathlib

/-!
Verification of the soleybackend food-ordering service.

The definitions below are a shallow embedding of the JavaScript source:
  * `updateStock` embeds `foodItemSchema.methods.updateStock`
    (src/models/Category.js, lines 351-365);
  * `processItems` / `createOrder` embed the order-creation handler
    `router.post('/')` (src/routes/orderRoutes.js, lines 19-201);
  * `restoreLines` / `cancelRoute` embed the cancellation handler
    `router.patch('/:id/cancel')` (src/routes/orderRoutes.js, lines 438-499);
  * `calculateItemDiscount` embeds the helper of the same name
    (src/unnamed/part_002, lines 104-129);
  * the address operations embed src/controllers/Addresscontroller.js;
  * `ratingRoute` embeds `router.post('/:id/rating')` and
    `updateStatusRoute` embeds `router.patch('/:id/status')`;
  * `getAllRoute` embeds `router.get('/getall')`.

JavaScript numbers are modelled as rationals (`ℚ`); the properties at stake
are algebraic identities between values the code itself computes, so the
rational model tracks the source expressions one for one.  Monetary rounding
(`Math.round(x * 100) / 100`) is modelled exactly by `round2`.
-/

namespace Soley

/-- Order status enum from the order schema / route validators. -/
inductive OrderStatus
  | pending | confirmed | preparing | ready | outForDelivery
  | delivered | cancelled | refunded
deriving DecidableEq, Repr

/-- Operation argument of `updateStock` (the string 'subtract' or 'add'). -/
inductive StockOp
  | subtract | add
deriving DecidableEq, Repr

/-- Payment methods accepted by the order-creation validator. -/
inductive PaymentMethod
  | cashOnDelivery   -- 'cash-on-delivery'
  | cashOnDeliveryCamel -- 'cashOnDelivery'
  | card | shop | paypal | stripe
deriving DecidableEq, Repr

/-- COD payment sub-type ('cash' or 'card'). -/
inductive CodType
  | cash | card
deriving DecidableEq, Repr

/-- Delivery type ('delivery' or 'pickup'). -/
inductive DeliveryType
  | delivery | pickup
deriving DecidableEq, Repr

/-- The slice of a FoodItem document that the order/stock code reads and
writes: `price`, `isActive`, `stockQuantity`, `totalSold`
(src/models/Category.js). -/
structure FoodItem where
  price : ℚ
  isActive : Bool
  stockQuantity : ℤ
  totalSold : ℤ
deriving DecidableEq, Repr

/-- `foodItemSchema.methods.updateStock` (src/models/Category.js 351-365):
on 'subtract', `stockQuantity -= quantity; totalSold += quantity`;
otherwise `stockQuantity += quantity`; then, in either case, clamp
`stockQuantity` to 0 from below. -/
def updateStock (item : FoodItem) (quantity : ℤ) (operation : StockOp) :
    FoodItem :=
  let item₁ :=
    match operation with
    | .subtract =>
        { item with
          stockQuantity := item.stockQuantity - quantity
          totalSold := item.totalSold + quantity }
    | .add =>
        { item with stockQuantity := item.stockQuantity + quantity }
  if item₁.stockQuantity < 0 then { item₁ with stockQuantity := 0 } else item₁

/-- The food-item collection, keyed by document id (`FoodItem.findById`). -/
def Catalog : Type := Nat → Option FoodItem

/-- Persisting a document under its id (`foodItem.save()`). -/
def saveItem (cat : Catalog) (id : Nat) (item : FoodItem) : Catalog :=
  fun j => if j = id then some item else cat j

/-- Stock quantity recorded for an id (0 when the id is absent). -/
def stockOf (cat : Catalog) (id : Nat) : ℤ :=
  match cat id with
  | some item => item.stockQuantity
  | none => 0

/-- totalSold recorded for an id (0 when the id is absent). -/
def totalSoldOf (cat : Catalog) (id : Nat) : ℤ :=
  match cat id with
  | some item => item.totalSold
  | none => 0

/-- A selected extra as submitted by the client; the handler reads
`extra.price || 0`, so an absent price counts as 0. -/
structure ExtraSel where
  price : Option ℚ
deriving DecidableEq, Repr

/-- A selected addon as submitted by the client (`addon.price || 0`). -/
structure AddonSel where
  price : Option ℚ
deriving DecidableEq, Repr

/-- A selected meal size as submitted by the client
(`item.selectedMealSize.additionalPrice || 0`). -/
structure MealSizeSel where
  additionalPrice : Option ℚ
deriving DecidableEq, Repr

/-- One entry of the `items` array of the order-creation request body. -/
structure OrderItemReq where
  foodItemId : Nat
  quantity : ℤ
  selectedMealSize : Option MealSizeSel
  selectedExtras : Option (List ExtraSel)
  selectedAddons : Option (List AddonSel)
deriving DecidableEq, Repr

/-- The order-creation request body (src/routes/orderRoutes.js 39-52). -/
structure CreateOrderRequest where
  items : List OrderItemReq
  deliveryType : DeliveryType
  paymentMethod : PaymentMethod
  codPaymentType : Option CodType
  branchId : Nat
  deliveryAddress : Option String
  couponCode : Option String
  clientDeliveryFee : Option ℚ
  clientSubtotal : Option ℚ
  clientTax : Option ℚ
  clientTotal : Option ℚ
deriving DecidableEq, Repr

/-- A processed line item as stored on the order (orderRoutes.js 101-110). -/
structure ProcessedItem where
  foodItem : Nat
  quantity : ℤ
  unitPrice : ℚ
  totalPrice : ℚ
deriving DecidableEq, Repr

/-- Order rating sub-document; `overall` is optional at the schema level,
the route checks `order.rating && order.rating.overall` for truthiness. -/
structure RatingRec where
  food : Option ℤ
  delivery : Option ℤ
  overall : Option ℤ
  comment : Option String
deriving DecidableEq, Repr

/-- One tracking-history entry appended by `addTrackingUpdate`. -/
structure TrackingEntry where
  status : OrderStatus
  message : String
  timestamp : ℤ
deriving DecidableEq, Repr

/-- Cancellation record {reason, cancelledBy}. -/
structure Cancellation where
  reason : String
  cancelledBy : String
deriving DecidableEq, Repr

/-- The slice of an Order document the routes read and write. -/
structure Order where
  userId : Nat
  items : List ProcessedItem
  subtotal : ℚ
  deliveryFee : ℚ
  tax : ℚ
  discount : ℚ
  couponCode : Option String
  total : ℚ
  status : OrderStatus
  actualDeliveryTime : Option ℤ
  trackingUpdates : List TrackingEntry
  cancellation : Option Cancellation
  rating : Option RatingRec
deriving DecidableEq, Repr

/-- JavaScript truthiness of an optional string (`if (couponCode)`,
`if (!deliveryAddress)`): present and non-empty. -/
def truthyStr (s : Option String) : Bool :=
  match s with
  | some v => v ≠ ""
  | none => false

/-- Unit price of one line (orderRoutes.js 85-97): catalog base price plus
the client-submitted meal-size additional price, extras prices and addons
prices (each read with `|| 0`). -/
def lineUnitPrice (basePrice : ℚ) (item : OrderItemReq) : ℚ :=
  basePrice
    + (match item.selectedMealSize with
       | some s => s.additionalPrice.getD 0
       | none => 0)
    + (match item.selectedExtras with
       | some xs => (xs.map (fun e => e.price.getD 0)).sum
       | none => 0)
    + (match item.selectedAddons with
       | some xs => (xs.map (fun a => a.price.getD 0)).sum
       | none => 0)

/-- The per-item loop of the order-creation handler (orderRoutes.js 74-115):
look the item up, reject if missing or inactive, compute unit price and line
total, accumulate the subtotal, and decrement stock via
`updateStock(quantity, 'subtract')`.  Returns the processed items, the
subtotal, and the catalog after the decrements; an error carries the HTTP
status code (400). -/
def processItems (cat : Catalog) :
    List OrderItemReq → Except Nat (List ProcessedItem × ℚ × Catalog)
  | [] => .ok ([], 0, cat)
  | item :: rest =>
    match cat item.foodItemId with
    | none => .error 400
    | some foodItem =>
      if foodItem.isActive = false then .error 400
      else
        let unitPrice := lineUnitPrice foodItem.price item
        let totalPrice := unitPrice * (item.quantity : ℚ)
        let processed : ProcessedItem :=
          { foodItem := item.foodItemId
            quantity := item.quantity
            unitPrice := unitPrice
            totalPrice := totalPrice }
        let cat₁ :=
          saveItem cat item.foodItemId
            (updateStock foodItem item.quantity .subtract)
        match processItems cat₁ rest with
        | .ok (ps, sub, cat₂) => .ok (processed :: ps, totalPrice + sub, cat₂)
        | .error e => .error e

/-- The express-validator checks relevant to the modelled fields
(orderRoutes.js 19-28): a non-empty `items` array, each quantity an integer
at least 1, and a non-negative `deliveryFee` when supplied. -/
def validCreateRequest (req : CreateOrderRequest) : Bool :=
  (!req.items.isEmpty)
    && req.items.all (fun item => 1 ≤ item.quantity)
    && (match req.clientDeliveryFee with
        | some fee => 0 ≤ fee
        | none => true)

/-- The order-creation handler (orderRoutes.js 19-201): validation, the COD
sub-type check, the delivery-address check, the item loop, then the totals
`taxRate = 0.00`, `tax = subtotal * taxRate`, `deliveryFee` from the client
or 0, `discount = subtotal * 0.1` when a coupon code is truthy, and
`total = subtotal + deliveryFee + tax - discount`.  Returns the created
order and the catalog after the stock decrements. -/
def createOrder (req : CreateOrderRequest) (userId : Nat) (cat : Catalog) :
    Except Nat (Order × Catalog) :=
  if validCreateRequest req = false then .error 400
  else if (req.paymentMethod = .cashOnDeliveryCamel
           ∨ req.paymentMethod = .cashOnDelivery)
          ∧ req.codPaymentType = none then .error 400
  else if req.deliveryType = .delivery ∧ truthyStr req.deliveryAddress = false
    then .error 400
  else
    match processItems cat req.items with
    | .error e => .error e
    | .ok (processedItems, subtotal, cat₁) =>
      let deliveryFee := req.clientDeliveryFee.getD 0
      let taxRate : ℚ := 0
      let tax := subtotal * taxRate
      let discount := if truthyStr req.couponCode then subtotal * (1/10) else 0
      let total := subtotal + deliveryFee + tax - discount
      .ok
        ({ userId := userId
           items := processedItems
           subtotal := subtotal
           deliveryFee := deliveryFee
           tax := tax
           discount := discount
           couponCode := req.couponCode
           total := total
           status := .pending
           actualDeliveryTime := none
           trackingUpdates := []
           cancellation := none
           rating := none }, cat₁)

/-- Role of the authenticated requester (`req.user.role`). -/
inductive Role
  | customer | admin | manager
deriving DecidableEq, Repr

/-- Authenticated requester (`req.user`). -/
structure Requester where
  id : Nat
  role : Role
deriving DecidableEq, Repr

/-- Modelled from the spec: `order.cancelOrder(reason, cancelledBy)` lives in
models/Order.js, which is not under src/.  Per the spec's cancellation
contract it records the cancellation `{reason, actor}` and moves the order to
the terminal `cancelled` state. -/
def cancelOrder (order : Order) (reason : String) (cancelledBy : String) :
    Order :=
  { order with
    status := .cancelled
    cancellation := some { reason := reason, cancelledBy := cancelledBy } }

/-- One iteration of the stock-restore loop of the cancellation handler
(orderRoutes.js 483-488): look the food item up and, when found,
`updateStock(item.quantity, 'add')`. -/
def restoreStep (c : Catalog) (p : ProcessedItem) : Catalog :=
  match c p.foodItem with
  | some foodItem => saveItem c p.foodItem (updateStock foodItem p.quantity .add)
  | none => c

/-- The stock-restore loop of the cancellation handler
(orderRoutes.js 482-488), iterating `restoreStep` over the order's line
items. -/
def restoreLines (cat : Catalog) (ps : List ProcessedItem) : Catalog :=
  ps.foldl restoreStep cat

/-- The cancellation handler (orderRoutes.js 438-499) applied to a found
order: reason must be non-empty, the requester must own the order or hold the
admin/manager role (403), the order must not already be delivered, cancelled
or refunded (400); on success `cancelOrder` runs and every line's stock is
restored. -/
def cancelRoute (order : Order) (user : Requester) (reason : String)
    (cat : Catalog) : Except Nat (Order × Catalog) :=
  if reason = "" then .error 400
  else if order.userId ≠ user.id ∧ user.role ≠ .admin ∧ user.role ≠ .manager
    then .error 403
  else if order.status = .delivered ∨ order.status = .cancelled
          ∨ order.status = .refunded then .error 400
  else
    let cancelledBy :=
      if user.role = .admin ∨ user.role = .manager then "admin" else "customer"
    let order₁ := cancelOrder order reason cancelledBy
    .ok (order₁, restoreLines cat order₁.items)

/-- JavaScript string of an order status, as interpolated into the default
tracking message. -/
def statusName : OrderStatus → String
  | .pending => "pending"
  | .confirmed => "confirmed"
  | .preparing => "preparing"
  | .ready => "ready"
  | .outForDelivery => "out-for-delivery"
  | .delivered => "delivered"
  | .cancelled => "cancelled"
  | .refunded => "refunded"

/-- Modelled from the spec: `order.addTrackingUpdate(status, message, ...)`
lives in models/Order.js, which is not under src/.  Per the spec's status
contract it appends a tracking entry (status, note, timestamp) and moves the
order to the new status; the actual-delivery timestamp is stamped by the
route itself, not here. -/
def addTrackingUpdate (order : Order) (status : OrderStatus)
    (message : String) (now : ℤ) : Order :=
  { order with
    status := status
    trackingUpdates :=
      order.trackingUpdates
        ++ [{ status := status, message := message, timestamp := now }] }

/-- The status-update handler (orderRoutes.js 378-433) applied to a found
order: add a tracking update (with the supplied message or the default one),
then, when the new status is 'delivered' and `actualDeliveryTime` is not yet
set, stamp it with the current time. -/
def updateStatusRoute (order : Order) (status : OrderStatus)
    (message : Option String) (now : ℤ) : Order :=
  let order₁ :=
    addTrackingUpdate order status
      (message.getD ("Order status updated to " ++ statusName status)) now
  if status = .delivered ∧ order₁.actualDeliveryTime = none then
    { order₁ with actualDeliveryTime := some now }
  else order₁

/-- The request body of the rating route, after express-validator bounds. -/
structure RatingBody where
  food : Option ℤ
  delivery : Option ℤ
  overall : ℤ
  comment : Option String
deriving DecidableEq, Repr

/-- The express-validator checks of the rating route
(orderRoutes.js 507-510): optional food/delivery in 1..5, required overall in
1..5, optional comment of at most 500 characters. -/
def validRatingBody (body : RatingBody) : Bool :=
  (match body.food with
   | some v => 1 ≤ v && v ≤ 5
   | none => true)
    && (match body.delivery with
        | some v => 1 ≤ v && v ≤ 5
        | none => true)
    && (1 ≤ body.overall && body.overall ≤ 5)
    && (match body.comment with
        | some c => c.length ≤ 500
        | none => true)

/-- Modelled from the spec: `order.addRating(req.body)` lives in
models/Order.js, which is not under src/.  Per the spec's rating contract it
records the submitted rating fields on the order. -/
def addRating (order : Order) (body : RatingBody) : Order :=
  { order with
    rating := some
      { food := body.food
        delivery := body.delivery
        overall := some body.overall
        comment := body.comment } }

/-- Truthiness test the rating route performs:
`order.rating && order.rating.overall`. -/
def alreadyRated (order : Order) : Bool :=
  match order.rating with
  | some r =>
    match r.overall with
    | some v => v ≠ 0
    | none => false
  | none => false

/-- The rating handler (orderRoutes.js 504-560) applied to a found order:
validation (400), then ownership (403, no admin bypass), then the
delivered-status check (400), then the already-rated check (400); on success
`addRating` records the rating. -/
def ratingRoute (order : Order) (user : Requester) (body : RatingBody) :
    Except Nat Order :=
  if validRatingBody body = false then .error 400
  else if order.userId ≠ user.id then .error 403
  else if order.status ≠ .delivered then .error 400
  else if alreadyRated order then .error 400
  else .ok (addRating order body)

/-- Offer discount types (models/offer enum as used by the routes). -/
inductive OfferType
  | percentage | fixedAmount | buyOneGetOne | freeDelivery | combo
deriving DecidableEq, Repr

/-- The slice of an Offer document read by `calculateItemDiscount`.
`isValid` is a virtual of the Offer model (models/offer is not under src/);
the helper only tests it for truthiness, so it is carried as a flag. -/
structure Offer where
  type : OfferType
  value : ℚ
  maxDiscountAmount : Option ℚ
  isValid : Bool
deriving DecidableEq, Repr

/-- `Math.round(x * 100) / 100`: JavaScript `Math.round` rounds to the
nearest integer, halves toward positive infinity, i.e. `⌊y + 1/2⌋`. -/
def round2 (x : ℚ) : ℚ :=
  (⌊x * 100 + 1 / 2⌋ : ℚ) / 100

/-- JavaScript truthiness of `offer.maxDiscountAmount`: present and
non-zero. -/
def truthyCap (cap : Option ℚ) : Bool :=
  match cap with
  | some v => v ≠ 0
  | none => false

/-- `calculateItemDiscount(originalPrice, offer)` (src/unnamed/part_002,
lines 104-129): return the price unchanged when the offer is invalid;
otherwise, for percentage offers take `originalPrice * (1 - value/100)` and,
when a cap is configured (truthy), floor the result at
`originalPrice - maxDiscountAmount` via `Math.max`; fixed-amount clamps at 0;
buy-one-get-one halves; every switch outcome is rounded to cents. -/
def calculateItemDiscount (originalPrice : ℚ) (offer : Offer) : ℚ :=
  if offer.isValid = false then originalPrice
  else
    let discountedPrice :=
      match offer.type with
      | .percentage =>
        let d := originalPrice * (1 - offer.value / 100)
        if truthyCap offer.maxDiscountAmount then
          max d (originalPrice - offer.maxDiscountAmount.getD 0)
        else d
      | .fixedAmount => max 0 (originalPrice - offer.value)
      | .buyOneGetOne => originalPrice / 2
      | _ => originalPrice
    round2 discountedPrice

/-- Shop latitude constant of the address controller. -/
def SHOP_LAT : ℚ := 413995 / 10000

/-- Shop longitude constant of the address controller. -/
def SHOP_LNG : ℚ := 21909 / 10000

/-- Maximum delivery distance constant (km). -/
def MAX_DELIVERY_DISTANCE : ℚ := 6

/-- An Address document (models/Address is not under src/; the fields are
the ones the controller and the spec's Address data model use). -/
structure Address where
  id : Nat
  userId : Nat
  addrType : String
  address : String
  apartment : Option String
  instructions : Option String
  latitude : ℚ
  longitude : ℚ
  isDefault : Bool
deriving DecidableEq, Repr

/-- Request body shared by `saveAddress` and `updateAddress`. -/
structure AddressReq where
  addrType : Option String
  address : Option String
  apartment : Option String
  instructions : Option String
  latitude : Option ℚ
  longitude : Option ℚ
  isDefault : Option Bool
deriving DecidableEq, Repr

/-- JavaScript truthiness of an optional number: present and non-zero. -/
def truthyNum (v : Option ℚ) : Bool :=
  match v with
  | some x => x ≠ 0
  | none => false

/-- Modelled from the spec: `validateCoordinates` lives in
utils/locationUtils, which is not under src/.  Per the spec's geofence
contract it checks latitude in [-90, 90] and longitude in [-180, 180]. -/
def validateCoordinates (lat lng : ℚ) : Bool :=
  (-90 ≤ lat && lat ≤ 90) && (-180 ≤ lng && lng ≤ 180)

/-- Signature of `calculateDistance` from utils/locationUtils (not under
src/): a great-circle distance in km from the shop coordinates.  Its
trigonometric internals are outside the rational model, so the address
operations are parametrized over it. -/
def DistFn : Type := ℚ → ℚ → ℚ → ℚ → ℚ

/-- Persisting an address document under its id (`address.save()`). -/
def saveAddr (store : List Address) (a : Address) : List Address :=
  store.map (fun b => if b.id = a.id then a else b)

/-- `saveAddress` (Addresscontroller.js 30-89): require truthy address,
latitude and longitude (400), validate coordinates (400), reject beyond the
delivery radius (400); then insert a new document whose `isDefault` is
`isDefault || false` — no other document's default flag is touched. -/
def saveAddress (dist : DistFn) (store : List Address) (uid : Nat)
    (req : AddressReq) (newId : Nat) : Except Nat (List Address) :=
  match req.address, req.latitude, req.longitude with
  | some addr, some lat, some lng =>
    if addr = "" ∨ lat = 0 ∨ lng = 0 then .error 400
    else if validateCoordinates lat lng = false then .error 400
    else if MAX_DELIVERY_DISTANCE < dist SHOP_LAT SHOP_LNG lat lng
      then .error 400
    else
      let newAddress : Address :=
        { id := newId
          userId := uid
          addrType :=
            match req.addrType with
            | some t => if t = "" then "home" else t
            | none => "home"
          address := addr
          apartment := req.apartment
          instructions := req.instructions
          latitude := lat
          longitude := lng
          isDefault := req.isDefault = some true }
      .ok (store ++ [newAddress])
  | _, _, _ => .error 400

/-- The field updates of `updateAddress` (Addresscontroller.js 182-188):
truthy type/address/latitude/longitude overwrite, apartment/instructions
overwrite when present, and `isDefault` is overwritten whenever the request
carries it — without clearing any other document. -/
def applyAddressUpdate (existing : Address) (req : AddressReq) : Address :=
  { existing with
    addrType :=
      match req.addrType with
      | some t => if t = "" then existing.addrType else t
      | none => existing.addrType
    address :=
      match req.address with
      | some a => if a = "" then existing.address else a
      | none => existing.address
    apartment :=
      match req.apartment with
      | some a => some a
      | none => existing.apartment
    instructions :=
      match req.instructions with
      | some i => some i
      | none => existing.instructions
    latitude :=
      match req.latitude with
      | some v => if v = 0 then existing.latitude else v
      | none => existing.latitude
    longitude :=
      match req.longitude with
      | some v => if v = 0 then existing.longitude else v
      | none => existing.longitude
    isDefault :=
      match req.isDefault with
      | some b => b
      | none => existing.isDefault }

/-- `updateAddress` (Addresscontroller.js 143-205): find the document by id
and owner (404); when both coordinates are truthy, validate them and check
the delivery radius (400); then apply the field updates and save. -/
def updateAddress (dist : DistFn) (store : List Address) (uid : Nat)
    (addressId : Nat) (req : AddressReq) : Except Nat (List Address) :=
  match store.find? (fun a => a.id == addressId && a.userId == uid) with
  | none => .error 404
  | some existing =>
    if truthyNum req.latitude && truthyNum req.longitude then
      let lat := req.latitude.getD 0
      let lng := req.longitude.getD 0
      if validateCoordinates lat lng = false then .error 400
      else if MAX_DELIVERY_DISTANCE < dist SHOP_LAT SHOP_LNG lat lng
        then .error 400
      else .ok (saveAddr store (applyAddressUpdate existing req))
    else .ok (saveAddr store (applyAddressUpdate existing req))

/-- `deleteAddress` (Addresscontroller.js 208-245): `findOneAndDelete` by id
and owner (404 when absent); when the deleted document was the default,
`findOne` picks some remaining document of the user and saves it with
`isDefault = true`. -/
def deleteAddress (store : List Address) (uid : Nat) (addressId : Nat) :
    Except Nat (List Address) :=
  match store.find? (fun a => a.id == addressId && a.userId == uid) with
  | none => .error 404
  | some deleted =>
    let store₁ := store.eraseP (fun a => a.id == addressId && a.userId == uid)
    if deleted.isDefault then
      match store₁.find? (fun a => a.userId == uid) with
      | some next => .ok (saveAddr store₁ { next with isDefault := true })
      | none => .ok store₁
    else .ok store₁

/-- `setDefaultAddress` (Addresscontroller.js 248-287): find the document by
id and owner (404); `updateMany` clears `isDefault` on every document of the
user; then the found document is saved with `isDefault = true`. -/
def setDefaultAddress (store : List Address) (uid : Nat) (addressId : Nat) :
    Except Nat (List Address) :=
  match store.find? (fun a => a.id == addressId && a.userId == uid) with
  | none => .error 404
  | some addr =>
    let store₁ :=
      store.map (fun a =>
        if a.userId == uid then { a with isDefault := false } else a)
    .ok (saveAddr store₁ { addr with isDefault := true })

/-- The slice of an Order document the list endpoints read. -/
structure OrderDoc where
  id : Nat
  userId : Nat
  status : OrderStatus
  createdAt : ℤ
deriving DecidableEq, Repr

/-- Response envelope of GET /orders/getall. -/
structure GetAllResponse where
  count : ℕ
  totalOrders : ℕ
  totalPages : ℕ
  currentPage : ℕ
  orders : List OrderDoc
deriving DecidableEq, Repr

/-- Descending insertion by `createdAt` (`sort({ createdAt: -1 })`). -/
def insertByCreatedAtDesc (o : OrderDoc) : List OrderDoc → List OrderDoc
  | [] => [o]
  | b :: rest =>
    if b.createdAt < o.createdAt then o :: b :: rest
    else b :: insertByCreatedAtDesc o rest

/-- Sort a collection newest-first. -/
def sortByCreatedAtDesc (db : List OrderDoc) : List OrderDoc :=
  db.foldr insertByCreatedAtDesc []

/-- GET /orders/getall (orderRoutes.js 205-250): the user-scoped `query`
object is built, but the find runs as `Order.find()` with no filter — the
returned page is cut from all users' orders sorted newest-first — while
`totalOrders` (and `totalPages` from it) counts `Order.countDocuments(query)`
over the requester's orders only. -/
def getAllRoute (db : List OrderDoc) (user : Requester) (page limit : ℕ)
    (status : Option OrderStatus) : Except Nat GetAllResponse :=
  if page < 1 ∨ limit < 1 ∨ 50 < limit then .error 400
  else
    let skip := (page - 1) * limit
    let matchesQuery := fun (o : OrderDoc) =>
      o.userId == user.id
        && (match status with
            | some s => o.status == s
            | none => true)
    let orders := ((sortByCreatedAtDesc db).drop skip).take limit
    let totalOrders := (db.filter matchesQuery).length
    let totalPages := (totalOrders + limit - 1) / limit
    .ok
      { count := orders.length
        totalOrders := totalOrders
        totalPages := totalPages
        currentPage := page
        orders := orders }

/-- A sequence of `updateStock` calls applied in order. -/
def applyStockCalls (item : FoodItem) (calls : List (ℤ × StockOp)) :
    FoodItem :=
  calls.foldl (fun it c => updateStock it c.1 c.2) item

/-- Net quantity of a list of processed line items charged against one
catalog id. -/
def linesSum (ps : List ProcessedItem) (id : Nat) : ℤ :=
  (ps.map (fun p => if p.foodItem = id then p.quantity else 0)).sum

/-- The creation loop never clamps: before every decrement, the item exists
and holds at least the requested quantity. -/
def noClampCreate (cat : Catalog) : List OrderItemReq → Bool
  | [] => true
  | item :: rest =>
    match cat item.foodItemId with
    | none => false
    | some foodItem =>
      decide (item.quantity ≤ foodItem.stockQuantity)
        && noClampCreate
            (saveItem cat item.foodItemId
              (updateStock foodItem item.quantity .subtract))
            rest

/-- Number of default addresses a user has in a store. -/
def countDefaults (store : List Address) (uid : Nat) : ℕ :=
  (store.filter (fun a => a.userId == uid && a.isDefault)).length

/-! Concrete sample data used by the witness and counterexample theorems. -/

/-- Sample item: price 10.00, active, 50 in stock. -/
def sampleItem : FoodItem :=
  { price := 10, isActive := true, stockQuantity := 50, totalSold := 0 }

/-- Sample catalog holding `sampleItem` under id 1. -/
def sampleCat : Catalog := fun id => if id = 1 then some sampleItem else none

/-- Sample pickup request: two units of item 1 with one 1.50 extra. -/
def sampleReq : CreateOrderRequest :=
  { items := [{ foodItemId := 1, quantity := 2,
                selectedMealSize := none,
                selectedExtras := some [{ price := some (3 / 2) }],
                selectedAddons := none }]
    deliveryType := .pickup
    paymentMethod := .card
    codPaymentType := none
    branchId := 1
    deliveryAddress := none
    couponCode := none
    clientDeliveryFee := none
    clientSubtotal := none
    clientTax := none
    clientTotal := none }

/-- The order `sampleReq` creates: unit price 11.50, line total 23.00. -/
def sampleOrder : Order :=
  { userId := 7
    items := [{ foodItem := 1, quantity := 2, unitPrice := 23 / 2,
                totalPrice := 23 }]
    subtotal := 23
    deliveryFee := 0
    tax := 0
    discount := 0
    couponCode := none
    total := 23
    status := .pending
    actualDeliveryTime := none
    trackingUpdates := []
    cancellation := none
    rating := none }

/-- The catalog after `sampleReq` is placed: item 1 decremented by 2. -/
def sampleCatAfter : Catalog :=
  saveItem sampleCat 1 (updateStock sampleItem 2 .subtract)

/-- A pending, unrated order owned by user 7. -/
def samplePendingOrder : Order :=
  { userId := 7, items := [], subtotal := 0, deliveryFee := 0, tax := 0,
    discount := 0, couponCode := none, total := 0, status := .pending,
    actualDeliveryTime := none, trackingUpdates := [], cancellation := none,
    rating := none }

/-- A valid rating body: overall 5, nothing else. -/
def sampleRatingBody : RatingBody :=
  { food := none, delivery := none, overall := 5, comment := none }

/-- A one-order database whose single order belongs to user 2. -/
def sampleDb : List OrderDoc :=
  [{ id := 1, userId := 2, status := .pending, createdAt := 0 }]

/-- `sampleReq` with the client-submitted extra price raised from 1.50 to
2.50 — every other field identical. -/
def sampleReqDearerExtra : CreateOrderRequest :=
  { sampleReq with
    items := [{ foodItemId := 1, quantity := 2,
                selectedMealSize := none,
                selectedExtras := some [{ price := some (5 / 2) }],
                selectedAddons := none }] }

/-- The order `sampleReqDearerExtra` creates: unit price 12.50. -/
def sampleOrderDearer : Order :=
  { sampleOrder with
    items := [{ foodItem := 1, quantity := 2, unitPrice := 25 / 2,
                totalPrice := 25 }]
    subtotal := 25
    total := 25 }

/-- A valid 60%-off percentage offer capped at 5.00. -/
def cappedPercentageOffer : Offer :=
  { type := .percentage, value := 60, maxDiscountAmount := some 5,
    isValid := true }

/-- A distance function placing every coordinate at the shop itself. -/
def distZero : DistFn := fun _ _ _ _ => 0

/-- User 7's existing default address. -/
def sampleDefaultAddr : Address :=
  { id := 1, userId := 7, addrType := "home", address := "a",
    apartment := none, instructions := none, latitude := 1, longitude := 1,
    isDefault := true }

/-- A second, non-default address of user 7. -/
def sampleOtherAddr : Address :=
  { id := 2, userId := 7, addrType := "work", address := "b",
    apartment := none, instructions := none, latitude := 1, longitude := 1,
    isDefault := false }

/-- A create-address request that itself asks to be the default. -/
def sampleAddrReq : AddressReq :=
  { addrType := none, address := some "b", apartment := none,
    instructions := none, latitude := some 1, longitude := some 1,
    isDefault := some true }

/-- A catalog whose item 1 has only 3 units in stock. -/
def lowStockCat : Catalog :=
  fun id => if id = 1 then
    some { price := 10, isActive := true, stockQuantity := 3,
           totalSold := 0 } else none

/-- A pickup request for 5 units of item 1 — more than the stock holds. -/
def overdrawReq : CreateOrderRequest :=
  { items := [{ foodItemId := 1, quantity := 5, selectedMealSize := none,
                selectedExtras := none, selectedAddons := none }]
    deliveryType := .pickup
    paymentMethod := .card
    codPaymentType := none
    branchId := 1
    deliveryAddress := none
    couponCode := none
    clientDeliveryFee := none
    clientSubtotal := none
    clientTax := none
    clientTotal := none }

section Lemmas

/-- `updateStock` leaves a non-negative stock in every case. -/
theorem updateStock_nonneg (item : FoodItem) (q : ℤ) (op : StockOp) :
    0 ≤ (updateStock item q op).stockQuantity := by
  cases op <;> simp only [updateStock] <;> split <;> simp <;> omega

/-- `updateStock` with 'subtract' and sufficient stock is a plain record
update, with no clamping. -/
theorem updateStock_subtract_of_le (item : FoodItem) (q : ℤ)
    (h : q ≤ item.stockQuantity) :
    updateStock item q .subtract =
      { item with
        stockQuantity := item.stockQuantity - q
        totalSold := item.totalSold + q } := by
  simp only [updateStock]
  split
  · omega
  · rfl

/-- `updateStock` with 'add' of a non-negative quantity onto non-negative
stock is a plain record update, with no clamping. -/
theorem updateStock_add_of_nonneg (item : FoodItem) (q : ℤ)
    (hs : 0 ≤ item.stockQuantity) (hq : 0 ≤ q) :
    updateStock item q .add =
      { item with stockQuantity := item.stockQuantity + q } := by
  simp only [updateStock]
  split
  · omega
  · rfl

/-- 'add' never touches `totalSold`. -/
theorem updateStock_add_totalSold (item : FoodItem) (q : ℤ) :
    (updateStock item q .add).totalSold = item.totalSold := by
  simp only [updateStock]
  split <;> rfl

/-- `stockOf` after a save reads the saved document at its id and the old
store elsewhere. -/
theorem stockOf_saveItem (cat : Catalog) (id : Nat) (item : FoodItem)
    (j : Nat) :
    stockOf (saveItem cat id item) j =
      if j = id then item.stockQuantity else stockOf cat j := by
  unfold stockOf saveItem
  by_cases h : j = id <;> simp [h]

/-- `totalSoldOf` after a save reads the saved document at its id and the
old store elsewhere. -/
theorem totalSoldOf_saveItem (cat : Catalog) (id : Nat) (item : FoodItem)
    (j : Nat) :
    totalSoldOf (saveItem cat id item) j =
      if j = id then item.totalSold else totalSoldOf cat j := by
  unfold totalSoldOf saveItem
  by_cases h : j = id <;> simp [h]

/-- `linesSum` of a cons splits into the head's contribution plus the
tail. -/
theorem linesSum_cons (p : ProcessedItem) (ps : List ProcessedItem)
    (id : Nat) :
    linesSum (p :: ps) id
      = (if p.foodItem = id then p.quantity else 0) + linesSum ps id := by
  simp [linesSum]

/-- Effect of the creation loop on stocks when no decrement clamps: each id
loses exactly the summed quantities charged against it, untouched ids keep
their documents, and every processed line's item remains present with
non-negative stock. -/
theorem processItems_noClamp_effect (items : List OrderItemReq)
    (cat : Catalog) (ps : List ProcessedItem) (sub : ℚ) (cat' : Catalog)
    (hnc : noClampCreate cat items = true)
    (h : processItems cat items = .ok (ps, sub, cat')) :
    (∀ id, stockOf cat' id = stockOf cat id - linesSum ps id)
      ∧ (∀ id, (∀ p ∈ ps, p.foodItem ≠ id) → cat' id = cat id)
      ∧ (∀ p ∈ ps, ∃ fi, cat' p.foodItem = some fi ∧ 0 ≤ fi.stockQuantity) := by
  induction items generalizing cat ps sub cat' with
  | nil =>
    rw [processItems] at h
    cases h
    refine ⟨fun id => by simp [linesSum], fun id _ => rfl, by simp⟩
  | cons item rest ih =>
    rw [noClampCreate] at hnc
    rw [processItems] at h
    split at h
    · cases h
    · next fi hfind =>
      rw [hfind] at hnc
      simp only [Bool.and_eq_true, decide_eq_true_eq] at hnc
      obtain ⟨hq, hnc'⟩ := hnc
      split at h
      · cases h
      · simp only [] at h
        split at h
        · next ps₁ sub₁ cat₂ hrec =>
          cases h
          have hfi' : updateStock fi item.quantity .subtract
              = { fi with
                  stockQuantity := fi.stockQuantity - item.quantity
                  totalSold := fi.totalSold + item.quantity } :=
            updateStock_subtract_of_le fi item.quantity hq
          obtain ⟨ih1, ih2, ih3⟩ := ih _ _ _ _ hnc' hrec
          have hcat₁ : ∀ id,
              stockOf (saveItem cat item.foodItemId
                (updateStock fi item.quantity .subtract)) id
            = if id = item.foodItemId
                then fi.stockQuantity - item.quantity
                else stockOf cat id := by
            intro id
            rw [stockOf_saveItem, hfi']
          refine ⟨?_, ?_, ?_⟩
          · intro id
            rw [ih1 id, hcat₁ id, linesSum_cons]
            by_cases hid : id = item.foodItemId
            · rw [if_pos hid, if_pos hid.symm, hid]
              have : stockOf cat item.foodItemId = fi.stockQuantity := by
                simp [stockOf, hfind]
              rw [this]
              ring
            · rw [if_neg hid, if_neg (fun hh => hid hh.symm)]
              ring
          · intro id hnone
            have hne : item.foodItemId ≠ id :=
              hnone _ (List.mem_cons_self _ _)
            rw [ih2 id (fun p hp => hnone p (List.mem_cons_of_mem _ hp))]
            unfold saveItem
            rw [if_neg (fun hh => hne hh.symm)]
          · intro p hp
            rcases List.mem_cons.mp hp with hp | hp
            · subst hp
              by_cases hrest : ∀ p' ∈ ps₁, p'.foodItem ≠ item.foodItemId
              · refine ⟨{ fi with
                    stockQuantity := fi.stockQuantity - item.quantity
                    totalSold := fi.totalSold + item.quantity }, ?_, ?_⟩
                · rw [ih2 item.foodItemId hrest]
                  unfold saveItem
                  rw [if_pos rfl, hfi']
                · show 0 ≤ fi.stockQuantity - item.quantity
                  omega
              · push_neg at hrest
                obtain ⟨p', hp', hpe⟩ := hrest
                obtain ⟨fi', hfi'', hge⟩ := ih3 p' hp'
                rw [hpe] at hfi''
                exact ⟨fi', hfi'', hge⟩
            · exact ih3 p hp
        · cases h

/-- Effect of the cancellation restore loop when every line's item is
present with non-negative stock and quantities are non-negative: each id
gains back exactly the summed quantities. -/
theorem restoreLines_effect (ps : List ProcessedItem) (c : Catalog)
    (hq : ∀ p ∈ ps, 0 ≤ p.quantity)
    (hex : ∀ p ∈ ps, ∃ fi, c p.foodItem = some fi ∧ 0 ≤ fi.stockQuantity) :
    ∀ id, stockOf (restoreLines c ps) id = stockOf c id + linesSum ps id := by
  induction ps generalizing c with
  | nil => intro id; simp [restoreLines, linesSum]
  | cons p rest ih =>
    intro id
    obtain ⟨fi, hfi, hge⟩ := hex p (List.mem_cons_self _ _)
    have hq0 : 0 ≤ p.quantity := hq p (List.mem_cons_self _ _)
    have hstep : restoreStep c p
        = saveItem c p.foodItem
            { fi with stockQuantity := fi.stockQuantity + p.quantity } := by
      unfold restoreStep
      simp only [hfi]
      rw [updateStock_add_of_nonneg fi p.quantity hge hq0]
    have hex' : ∀ p' ∈ rest,
        ∃ fi', restoreStep c p p'.foodItem = some fi'
          ∧ 0 ≤ fi'.stockQuantity := by
      intro p' hp'
      rw [hstep]
      by_cases hid : p'.foodItem = p.foodItem
      · refine ⟨{ fi with stockQuantity := fi.stockQuantity + p.quantity },
          ?_, by show 0 ≤ fi.stockQuantity + p.quantity; omega⟩
        unfold saveItem
        rw [if_pos hid]
      · obtain ⟨fi', hfi', hge'⟩ := hex p' (List.mem_cons_of_mem _ hp')
        refine ⟨fi', ?_, hge'⟩
        unfold saveItem
        rw [if_neg hid]
        exact hfi'
    have hrest : ∀ p' ∈ rest, 0 ≤ p'.quantity :=
      fun p' hp' => hq p' (List.mem_cons_of_mem _ hp')
    show stockOf (restoreLines (restoreStep c p) rest) id = _
    rw [ih (restoreStep c p) hrest hex', hstep, stockOf_saveItem,
      linesSum_cons]
    by_cases hid : id = p.foodItem
    · rw [if_pos hid, if_pos hid.symm, hid]
      have : stockOf c p.foodItem = fi.stockQuantity := by
        simp [stockOf, hfi]
      rw [this]
      ring
    · rw [if_neg hid, if_neg (fun hh => hid hh.symm)]
      ring

/-- Line quantities stored by the creation loop copy the request quantities,
so under the validator they are at least 1. -/
theorem processItems_quantities (items : List OrderItemReq) (cat : Catalog)
    (ps : List ProcessedItem) (sub : ℚ) (cat' : Catalog)
    (hvq : ∀ it ∈ items, 1 ≤ it.quantity)
    (h : processItems cat items = .ok (ps, sub, cat')) :
    ∀ p ∈ ps, 1 ≤ p.quantity := by
  induction items generalizing cat ps sub cat' with
  | nil =>
    rw [processItems] at h
    cases h
    simp
  | cons item rest ih =>
    rw [processItems] at h
    split at h
    · cases h
    · split at h
      · cases h
      · simp only [] at h
        split at h
        · next ps₁ sub₁ cat₂ hrec =>
          cases h
          intro p hp
          rcases List.mem_cons.mp hp with hp | hp
          · subst hp
            exact hvq item (List.mem_cons_self _ _)
          · exact ih _ _ _ _
              (fun it hit => hvq it (List.mem_cons_of_mem _ hit)) hrec p hp
        · cases h

/-- Evaluation of the sample request: unit price 11.50, total 23.00, stock
decremented by 2. -/
theorem createOrder_sampleReq_eval :
    createOrder sampleReq 7 sampleCat = .ok (sampleOrder, sampleCatAfter) := by
  simp only [createOrder, processItems, validCreateRequest, truthyStr,
    lineUnitPrice, sampleReq, sampleCat, sampleOrder, sampleCatAfter,
    sampleItem, updateStock]
  norm_num
  rfl

/-- Evaluation of the dearer-extra sample request: unit price 12.50. -/
theorem createOrder_sampleReqDearerExtra_eval :
    createOrder sampleReqDearerExtra 7 sampleCat
      = .ok (sampleOrderDearer, sampleCatAfter) := by
  simp only [createOrder, processItems, validCreateRequest, truthyStr,
    lineUnitPrice, sampleReqDearerExtra, sampleReq, sampleCat,
    sampleOrderDearer, sampleOrder, sampleCatAfter, sampleItem, updateStock]
  norm_num
  rfl

end Lemmas

/-- C2: after every call of any `updateStock` sequence — any quantities,
'subtract' or 'add' — the item's stockQuantity is at least 0, because the
method clamps the quantity at zero after either operation. -/
theorem stock_nonneg_after_calls (item : FoodItem)
    (calls : List (ℤ × StockOp)) (h : calls ≠ []) :
    0 ≤ (applyStockCalls item calls).stockQuantity := by
  induction calls generalizing item with
  | nil => cases h rfl
  | cons c rest ih =>
    cases rest with
    | nil => exact updateStock_nonneg item c.1 c.2
    | cons d tail =>
      have := ih (updateStock item c.1 c.2) (by simp)
      simpa [applyStockCalls] using this

/-- Witness for C2 at a concrete over-subtraction: stock 2, subtract 5. -/
theorem stock_nonneg_after_calls_witness :
    0 ≤ (applyStockCalls
          { price := 10, isActive := true, stockQuantity := 2, totalSold := 0 }
          [((5 : ℤ), StockOp.subtract)]).stockQuantity :=
  stock_nonneg_after_calls
    { price := 10, isActive := true, stockQuantity := 2, totalSold := 0 }
    [((5 : ℤ), StockOp.subtract)] (by decide)

/-- C9: 'subtract' adds the full requested quantity to totalSold even when
the stock is clamped at zero, 'add' leaves totalSold unchanged, and the
cancellation restore loop therefore never changes any item's totalSold. -/
theorem totalSold_frame :
    (∀ (item : FoodItem) (q : ℤ),
        (updateStock item q .subtract).totalSold = item.totalSold + q
          ∧ (updateStock item q .add).totalSold = item.totalSold)
      ∧ ∀ (cat : Catalog) (ps : List ProcessedItem) (id : Nat),
          totalSoldOf (restoreLines cat ps) id = totalSoldOf cat id := by
  constructor
  · intro item q
    constructor
    · simp only [updateStock]
      split <;> rfl
    · exact updateStock_add_totalSold item q
  · intro cat ps
    induction ps generalizing cat with
    | nil => intro id; rfl
    | cons p rest ih =>
      intro id
      show totalSoldOf (restoreLines (restoreStep cat p) rest) id
        = totalSoldOf cat id
      rw [ih (restoreStep cat p) id]
      unfold restoreStep
      cases hfind : cat p.foodItem with
      | none => rfl
      | some foodItem =>
        rw [totalSoldOf_saveItem, updateStock_add_totalSold]
        split
        · next hj =>
          subst hj
          simp [totalSoldOf, hfind]
        · rfl

/-- C8: the status-update handler stamps actualDeliveryTime exactly once —
the first 'delivered' transition sets it to the current time, an existing
timestamp is never overwritten by any later update, and a repeated
'delivered' update leaves it unchanged. -/
theorem actualDeliveryTime_once (order : Order) (s : OrderStatus)
    (msg msg' : Option String) (now now' : ℤ) :
    (order.actualDeliveryTime = none →
        (updateStatusRoute order .delivered msg now).actualDeliveryTime
          = some now)
      ∧ (∀ t, order.actualDeliveryTime = some t →
          (updateStatusRoute order s msg now).actualDeliveryTime = some t)
      ∧ (updateStatusRoute (updateStatusRoute order .delivered msg now)
            .delivered msg' now').actualDeliveryTime
          = (updateStatusRoute order .delivered msg now).actualDeliveryTime := by
  refine ⟨?_, ?_, ?_⟩
  · intro h
    simp [updateStatusRoute, addTrackingUpdate, h]
  · intro t h
    simp [updateStatusRoute, addTrackingUpdate, h]
  · cases h : order.actualDeliveryTime with
    | none => simp [updateStatusRoute, addTrackingUpdate, h]
    | some t => simp [updateStatusRoute, addTrackingUpdate, h]

/-- Witness for C8 on a concrete pending order delivered at time 5 and again
at time 9. -/
theorem actualDeliveryTime_once_witness :
    ((Order.mk 1 [] 0 0 0 0 none 0 .pending none [] none
        none).actualDeliveryTime = none →
      (updateStatusRoute
        (Order.mk 1 [] 0 0 0 0 none 0 .pending none [] none none)
        .delivered none 5).actualDeliveryTime = some 5)
    ∧ (updateStatusRoute
        (updateStatusRoute
          (Order.mk 1 [] 0 0 0 0 none 0 .pending none [] none none)
          .delivered none 5) .delivered none 9).actualDeliveryTime
      = (updateStatusRoute
          (Order.mk 1 [] 0 0 0 0 none 0 .pending none [] none none)
          .delivered none 5).actualDeliveryTime :=
  ⟨(actualDeliveryTime_once
      (Order.mk 1 [] 0 0 0 0 none 0 .pending none [] none none)
      .delivered none none 5 9).1,
   (actualDeliveryTime_once
      (Order.mk 1 [] 0 0 0 0 none 0 .pending none [] none none)
      .delivered none none 5 9).2.2⟩

/-- The accumulated subtotal of the item loop is the sum of the computed
line totals. -/
theorem processItems_subtotal (items : List OrderItemReq) (cat : Catalog)
    (ps : List ProcessedItem) (sub : ℚ) (cat' : Catalog)
    (h : processItems cat items = .ok (ps, sub, cat')) :
    sub = (ps.map (fun p => p.totalPrice)).sum := by
  induction items generalizing cat ps sub cat' with
  | nil =>
    simp only [processItems] at h
    cases h
    simp
  | cons item rest ih =>
    rw [processItems] at h
    split at h
    · cases h
    · split at h
      · cases h
      · simp only [] at h
        split at h
        · next ps₁ sub₁ cat₁ hrec =>
          cases h
          simpa using ih _ _ _ _ hrec
        · cases h

/-- C1: every order accepted by the creation endpoint stores
total = subtotal + deliveryFee + tax − discount, where subtotal is the sum
of the computed line totals, tax is subtotal times the reference tax rate 0,
deliveryFee is the caller-supplied fee (defaulted to 0), and the discount is
0 when no coupon code is given (and subtotal/10 when one is). -/
theorem order_total_invariant (req : CreateOrderRequest) (uid : Nat)
    (cat : Catalog) (order : Order) (cat' : Catalog)
    (h : createOrder req uid cat = .ok (order, cat')) :
    order.total
        = order.subtotal + order.deliveryFee + order.tax - order.discount
      ∧ order.subtotal = (order.items.map (fun p => p.totalPrice)).sum
      ∧ order.tax = order.subtotal * 0
      ∧ order.deliveryFee = req.clientDeliveryFee.getD 0
      ∧ (req.couponCode = none → order.discount = 0)
      ∧ (truthyStr req.couponCode = true →
          order.discount = order.subtotal * (1 / 10)) := by
  unfold createOrder at h
  split at h
  · cases h
  · split at h
    · cases h
    · split at h
      · cases h
      · cases hp : processItems cat req.items with
        | error e => rw [hp] at h; cases h
        | ok triple =>
          obtain ⟨ps, sub, cat₁⟩ := triple
          rw [hp] at h
          cases h
          have hsub := processItems_subtotal req.items cat ps sub _ hp
          refine ⟨by ring, hsub, by ring, rfl, ?_, ?_⟩
          · intro hc
            simp [truthyStr, hc]
          · intro hc
            simp only [hc, if_true]

/-- Witness for C1: a one-line order (price 10, extra 1.50, quantity 2) with
no coupon, fee or tax totals 23.00. -/
theorem order_total_invariant_witness :
    createOrder sampleReq 7 sampleCat = .ok (sampleOrder, sampleCatAfter)
      ∧ sampleOrder.total = sampleOrder.subtotal + sampleOrder.deliveryFee
          + sampleOrder.tax - sampleOrder.discount :=
  ⟨createOrder_sampleReq_eval,
   (order_total_invariant sampleReq 7 sampleCat sampleOrder sampleCatAfter
      createOrder_sampleReq_eval).1⟩

/-- C7: a rating is recorded at most once, only on a delivered order, and
only by the owning user; a non-owner gets 403, a non-delivered or
already-rated order gets 400, and every rejection returns before `addRating`
runs, leaving the order unchanged; after a successful rating any further
valid attempt is rejected with 400. -/
theorem rating_once_delivered_owner (order : Order) (user : Requester)
    (body : RatingBody) :
    (validRatingBody body = true → order.userId ≠ user.id →
        ratingRoute order user body = .error 403)
      ∧ (validRatingBody body = true → order.userId = user.id →
          order.status ≠ .delivered → ratingRoute order user body = .error 400)
      ∧ (validRatingBody body = true → order.userId = user.id →
          order.status = .delivered → alreadyRated order = true →
          ratingRoute order user body = .error 400)
      ∧ ∀ order', ratingRoute order user body = .ok order' →
          order.userId = user.id ∧ order.status = .delivered
            ∧ alreadyRated order = false
            ∧ ∀ body', validRatingBody body' = true →
                ratingRoute order' user body' = .error 400 := by
  refine ⟨?_, ?_, ?_, ?_⟩
  · intro hv hown
    simp [ratingRoute, hv, hown]
  · intro hv hown hst
    simp [ratingRoute, hv, hown, hst]
  · intro hv hown hst hrated
    simp [ratingRoute, hv, hown, hst, hrated]
  · intro order' h
    unfold ratingRoute at h
    split at h
    · cases h
    · split at h
      · cases h
      · split at h
        · cases h
        · split at h
          · cases h
          · next h₁ h₂ h₃ h₄ =>
            cases h
            have hv : validRatingBody body = true := by
              revert h₁; cases validRatingBody body <;> simp
            have huid : order.userId = user.id := not_ne_iff.mp h₂
            have hst : order.status = .delivered := not_ne_iff.mp h₃
            have hrated : alreadyRated order = false := by
              revert h₄; cases alreadyRated order <;> simp
            have hov : body.overall ≠ 0 := by
              intro h0
              rw [validRatingBody, h0] at hv
              simp at hv
            refine ⟨huid, hst, hrated, ?_⟩
            intro body' hv'
            simp [ratingRoute, hv', addRating, alreadyRated, huid, hst, hov]

/-- Witness for C7: rating a concrete pending (non-delivered) order of user 7
with a valid body is rejected with 400. -/
theorem rating_once_delivered_owner_witness :
    validRatingBody sampleRatingBody = true
      ∧ samplePendingOrder.userId = (Requester.mk 7 .customer).id
      ∧ samplePendingOrder.status ≠ .delivered
      ∧ ratingRoute samplePendingOrder (Requester.mk 7 .customer)
          sampleRatingBody = .error 400 :=
  ⟨by decide, by decide, by decide,
   (rating_once_delivered_owner samplePendingOrder (Requester.mk 7 .customer)
      sampleRatingBody).2.1 (by decide) (by decide) (by decide)⟩

/-- C10: the /getall page is cut from all users' orders — it does not depend
on the requester at all — while totalOrders counts only the requester's
orders, and on a concrete database the returned page contains an order the
requester does not own and its length disagrees with totalOrders. -/
theorem getall_unfiltered_list_filtered_count :
    (∀ (db : List OrderDoc) (u u' : Requester) (p l : ℕ)
        (s : Option OrderStatus) (r r' : GetAllResponse),
        getAllRoute db u p l s = .ok r → getAllRoute db u' p l s = .ok r' →
        r.orders = r'.orders)
      ∧ (∀ (db : List OrderDoc) (u : Requester) (p l : ℕ)
          (s : Option OrderStatus) (r : GetAllResponse),
          getAllRoute db u p l s = .ok r →
          r.totalOrders = (db.filter (fun o =>
            o.userId == u.id
              && (match s with
                  | some st => o.status == st
                  | none => true))).length)
      ∧ ((getAllRoute sampleDb (Requester.mk 1 .customer) 1 10 none).toOption.map
            (fun r => (r.orders.map (fun o => o.userId), r.count,
              r.totalOrders))
          = some ([2], 1, 0)) := by
  refine ⟨?_, ?_, by decide⟩
  · intro db u u' p l s r r' h h'
    unfold getAllRoute at h h'
    split at h
    · cases h
    · split at h'
      · cases h'
      · cases h
        cases h'
        rfl
  · intro db u p l s r h
    unfold getAllRoute at h
    split at h
    · cases h
    · cases h
      rfl

/-- Witness for C10: on the concrete one-order database, requesters 1 and 3
receive the same order list. -/
theorem getall_unfiltered_list_filtered_count_witness :
    (getAllRoute sampleDb (Requester.mk 1 .customer) 1 10 none
        = .ok { count := 1, totalOrders := 0, totalPages := 0,
                currentPage := 1, orders := sampleDb })
      ∧ (getAllRoute sampleDb (Requester.mk 3 .customer) 1 10 none
        = .ok { count := 1, totalOrders := 0, totalPages := 0,
                currentPage := 1, orders := sampleDb })
      ∧ ({ count := 1, totalOrders := 0, totalPages := 0, currentPage := 1,
           orders := sampleDb } : GetAllResponse).orders
        = ({ count := 1, totalOrders := 0, totalPages := 0, currentPage := 1,
             orders := sampleDb } : GetAllResponse).orders :=
  ⟨rfl, rfl,
   getall_unfiltered_list_filtered_count.1 sampleDb
     (Requester.mk 1 .customer) (Requester.mk 3 .customer) 1 10 none _ _
     rfl rfl⟩

/-- C4 counterexample: two order-creation requests identical except for the
client-submitted price inside `selectedExtras` (1.50 versus 2.50) store
different unit prices (11.50 versus 12.50) — client-submitted option prices
do influence the persisted order. -/
theorem client_prices_influence_order :
    ((createOrder sampleReq 7 sampleCat).toOption.map
        (fun p => p.1.items.map (fun q => q.unitPrice))) = some [23 / 2]
      ∧ ((createOrder sampleReqDearerExtra 7 sampleCat).toOption.map
          (fun p => p.1.items.map (fun q => q.unitPrice))) = some [25 / 2]
      ∧ ((23 : ℚ) / 2) ≠ 25 / 2 := by
  refine ⟨?_, ?_, by norm_num⟩
  · rw [createOrder_sampleReq_eval]
    simp [Except.toOption, sampleOrder]
  · rw [createOrder_sampleReqDearerExtra_eval]
    simp [Except.toOption, sampleOrderDearer, sampleOrder]

/-- C4 amended: the catalog is authoritative for the base price and the
client-submitted subtotal, tax and total fields never influence the stored
order — two requests differing only in those three fields produce identical
results — while (per the counterexample) prices inside the selected options
do flow into the stored unit price. -/
theorem client_totals_never_influence_order (req : CreateOrderRequest)
    (uid : Nat) (cat : Catalog) (s t tt : Option ℚ) :
    createOrder
        { req with clientSubtotal := s, clientTax := t, clientTotal := tt }
        uid cat
      = createOrder req uid cat := by
  cases req
  rfl

/-- C5 counterexample: with price 10.004, a valid 60% offer and cap 5.00,
the cent-rounded discounted price is 5.00, strictly below the claimed floor
price − cap = 5.004. -/
theorem percentage_cap_floor_counterexample :
    calculateItemDiscount (2501 / 250) cappedPercentageOffer = 5
      ∧ calculateItemDiscount (2501 / 250) cappedPercentageOffer
          < 2501 / 250 - 5 := by
  have h : calculateItemDiscount (2501 / 250) cappedPercentageOffer = 5 := by
    norm_num [calculateItemDiscount, cappedPercentageOffer, truthyCap,
      round2, max_def]
  exact ⟨h, by rw [h]; norm_num⟩

section Round2

/-- Cent rounding never exceeds the exact value by more than half a cent. -/
theorem round2_le_add_half_cent (x : ℚ) : round2 x ≤ x + 1 / 200 := by
  unfold round2
  have h : ((⌊x * 100 + 1 / 2⌋ : ℚ)) ≤ x * 100 + 1 / 2 :=
    Int.floor_le (x * 100 + 1 / 2)
  linarith

/-- Cent rounding never undershoots the exact value by half a cent or
more. -/
theorem sub_half_cent_lt_round2 (x : ℚ) : x - 1 / 200 < round2 x := by
  unfold round2
  have h : x * 100 + 1 / 2 - 1 < ((⌊x * 100 + 1 / 2⌋ : ℚ)) :=
    Int.sub_one_lt_floor (x * 100 + 1 / 2)
  linarith

/-- A lower bound that is a whole number of cents survives cent rounding. -/
theorem le_round2_of_cents_le (f x : ℚ) (n : ℤ) (hn : 100 * f = n)
    (hfx : f ≤ x) : f ≤ round2 x := by
  unfold round2
  have h1 : (n : ℚ) ≤ x * 100 + 1 / 2 := by
    rw [← hn]; linarith
  have h2 : n ≤ ⌊x * 100 + 1 / 2⌋ := Int.le_floor.mpr h1
  have h3 : (n : ℚ) ≤ ((⌊x * 100 + 1 / 2⌋ : ℚ)) := by exact_mod_cast h2
  have h4 : f = (n : ℚ) / 100 := by
    field_simp
    linarith
  rw [h4]
  linarith

end Round2

/-- C5 amended: for a valid percentage offer with a truthy (non-zero)
configured cap, the price before rounding is floored at price − cap exactly,
so the returned cent-rounded price never drops more than half a cent below
price − cap, and not at all when price − cap is a whole number of cents
(in particular for cent-denominated prices and caps); without a truthy cap
the returned price is the cent-rounding of price·(1 − value/100), so the
granted discount is price·value/100 up to half a cent. -/
theorem percentage_cap_floor (p : ℚ) (offer : Offer) (cap : ℚ)
    (htype : offer.type = .percentage) (hvalid : offer.isValid = true) :
    (offer.maxDiscountAmount = some cap → cap ≠ 0 →
        calculateItemDiscount p offer
            = round2 (max (p * (1 - offer.value / 100)) (p - cap))
          ∧ p - cap ≤ max (p * (1 - offer.value / 100)) (p - cap)
          ∧ p - cap - 1 / 200 < calculateItemDiscount p offer
          ∧ (∀ n : ℤ, 100 * (p - cap) = n →
              p - cap ≤ calculateItemDiscount p offer))
      ∧ (truthyCap offer.maxDiscountAmount = false →
          calculateItemDiscount p offer
              = round2 (p * (1 - offer.value / 100))
            ∧ p * (offer.value / 100) - 1 / 200
                ≤ p - calculateItemDiscount p offer
            ∧ p - calculateItemDiscount p offer
                ≤ p * (offer.value / 100) + 1 / 200) := by
  constructor
  · intro hcap hne
    have heq : calculateItemDiscount p offer
        = round2 (max (p * (1 - offer.value / 100)) (p - cap)) := by
      simp [calculateItemDiscount, htype, hvalid, truthyCap, hcap, hne]
    refine ⟨heq, le_max_right _ _, ?_, ?_⟩
    · rw [heq]
      calc p - cap - 1 / 200
          ≤ max (p * (1 - offer.value / 100)) (p - cap) - 1 / 200 := by
            have := le_max_right (p * (1 - offer.value / 100)) (p - cap)
            linarith
        _ < round2 (max (p * (1 - offer.value / 100)) (p - cap)) :=
            sub_half_cent_lt_round2 _
    · intro n hn
      rw [heq]
      exact le_round2_of_cents_le (p - cap) _ n hn (le_max_right _ _)
  · intro hcap
    have heq : calculateItemDiscount p offer
        = round2 (p * (1 - offer.value / 100)) := by
      simp [calculateItemDiscount, htype, hvalid, hcap]
    have h1 := round2_le_add_half_cent (p * (1 - offer.value / 100))
    have h2 := sub_half_cent_lt_round2 (p * (1 - offer.value / 100))
    refine ⟨heq, ?_, ?_⟩
    · rw [heq]
      nlinarith [h1]
    · rw [heq]
      nlinarith [h2]

/-- Witness for C5 at price 10.00, value 50, cap 2.00: the rounded price is
exactly the floor 8.00 and respects every stated bound. -/
theorem percentage_cap_floor_witness :
    calculateItemDiscount 10
        { type := .percentage, value := 50, maxDiscountAmount := some 2,
          isValid := true }
      = round2 (max ((10 : ℚ) * (1 - 50 / 100)) (10 - 2))
      ∧ (10 : ℚ) - 2 ≤ calculateItemDiscount 10
          { type := .percentage, value := 50, maxDiscountAmount := some 2,
            isValid := true } :=
  ⟨((percentage_cap_floor 10
      { type := .percentage, value := 50, maxDiscountAmount := some 2,
        isValid := true } 2 rfl rfl).1 rfl (by norm_num)).1,
   ((percentage_cap_floor 10
      { type := .percentage, value := 50, maxDiscountAmount := some 2,
        isValid := true } 2 rfl rfl).1 rfl (by norm_num)).2.2.2 800
     (by norm_num)⟩

/-- C6 counterexample: user 7 already has exactly one default address, yet
`saveAddress` with `isDefault: true` inserts a second default without
clearing the first — the create operation does not preserve the
at-most-one-default invariant. -/
theorem default_address_counterexample :
    countDefaults [sampleDefaultAddr] 7 = 1
      ∧ ((saveAddress distZero [sampleDefaultAddr] 7 sampleAddrReq
            2).toOption.map (fun s => countDefaults s 7)) = some 2 := by
  constructor
  · decide
  · decide

/-- C6 amended: `setDefaultAddress` clears every other default of the user —
afterwards every default address of that user carries the requested id — and
`deleteAddress` of the user's default address promotes a remaining address of
the user to default whenever one remains; `saveAddress` and `updateAddress`,
however, write the request's `isDefault` without clearing others (see the
counterexample), so create and update do not preserve the invariant. -/
theorem default_address_invariant_amended :
    (∀ (store : List Address) (uid addressId : Nat)
        (store' : List Address),
        setDefaultAddress store uid addressId = .ok store' →
        ∀ a ∈ store', a.userId = uid → a.isDefault = true →
          a.id = addressId)
      ∧ (∀ (store : List Address) (uid addressId : Nat)
          (store' : List Address) (deleted : Address),
          store.find? (fun a => a.id == addressId && a.userId == uid)
              = some deleted →
          deleted.isDefault = true →
          deleteAddress store uid addressId = .ok store' →
          (∃ b ∈ store', b.userId = uid) →
          ∃ b ∈ store', b.userId = uid ∧ b.isDefault = true) := by
  constructor
  · intro store uid addressId store' h a ha hauid hadef
    unfold setDefaultAddress at h
    split at h
    · cases h
    · next addr heq =>
      cases h
      have hpred := List.find?_some heq
      simp only [Bool.and_eq_true, beq_iff_eq] at hpred
      obtain ⟨b, hb, hab⟩ := List.mem_map.mp ha
      by_cases hid : b.id = addr.id
      · rw [if_pos hid] at hab
        rw [← hab]
        exact hpred.1
      · rw [if_neg hid] at hab
        obtain ⟨c, hc, hbc⟩ := List.mem_map.mp hb
        by_cases hcu : (c.userId == uid) = true
        · rw [if_pos hcu] at hbc
          rw [← hab, ← hbc] at hadef
          simp at hadef
        · rw [if_neg hcu] at hbc
          rw [← hab, ← hbc] at hauid
          simp only [beq_iff_eq] at hcu
          exact absurd hauid hcu
  · intro store uid addressId store' deleted hfind hdef h hex
    unfold deleteAddress at h
    rw [hfind] at h
    simp only [] at h
    rw [hdef] at h
    simp only [if_true] at h
    cases hnext : (store.eraseP
        (fun a => a.id == addressId && a.userId == uid)).find?
        (fun a => a.userId == uid) with
    | none =>
      rw [hnext] at h
      cases h
      obtain ⟨b, hb, hbu⟩ := hex
      have := List.find?_eq_none.mp hnext b hb
      simp [hbu] at this
    | some next =>
      rw [hnext] at h
      cases h
      have hmem := List.mem_of_find?_eq_some hnext
      have hpred := List.find?_some hnext
      simp only [beq_iff_eq] at hpred
      refine ⟨{ next with isDefault := true }, ?_, hpred, rfl⟩
      unfold saveAddr
      exact List.mem_map.mpr ⟨next, hmem, by simp⟩

/-- Witness for C6 on a concrete two-address store: setting address 2 as
user 7's default yields a store whose only default for user 7 has id 2. -/
theorem default_address_invariant_amended_witness :
    setDefaultAddress [sampleDefaultAddr, sampleOtherAddr] 7 2
        = .ok [{ sampleDefaultAddr with isDefault := false },
               { sampleOtherAddr with isDefault := true }]
      ∧ ({ sampleOtherAddr with isDefault := true } : Address).id = 2 :=
  ⟨rfl,
   default_address_invariant_amended.1
     [sampleDefaultAddr, sampleOtherAddr] 7 2
     [{ sampleDefaultAddr with isDefault := false },
      { sampleOtherAddr with isDefault := true }]
     rfl { sampleOtherAddr with isDefault := true }
     (by decide) (by decide) (by decide)⟩

/-- C3 counterexample: item 1 holds 3 units, an order for 5 units clamps the
stock at 0 at creation, and cancellation adds back the full requested 5 —
after create-then-cancel the stock is 5, not the original 3. -/
theorem cancel_restores_stock_counterexample :
    stockOf lowStockCat 1 = 3
      ∧ ((createOrder overdrawReq 7 lowStockCat).toOption.map
          (fun p => stockOf p.2 1)) = some 0
      ∧ ((createOrder overdrawReq 7 lowStockCat).toOption.bind
          (fun p => (cancelRoute p.1 (Requester.mk 7 .customer)
              "changed my mind" p.2).toOption.map
            (fun q => stockOf q.2 1))) = some 5
      ∧ (5 : ℤ) ≠ 3 := by
  refine ⟨by decide, ?_, ?_, by decide⟩
  · simp [createOrder, processItems, validCreateRequest, truthyStr,
      overdrawReq, lowStockCat, updateStock, saveItem, stockOf,
      Except.toOption]
  · simp [createOrder, processItems, validCreateRequest, truthyStr,
      overdrawReq, lowStockCat, updateStock, saveItem, stockOf,
      Except.toOption, cancelRoute, cancelOrder, restoreLines, restoreStep]

/-- A successful cancellation restores over the order's own line items and
only happens from a non-terminal status. -/
theorem cancelRoute_ok_effect (order : Order) (user : Requester)
    (reason : String) (cat : Catalog) (order' : Order) (cat₂ : Catalog)
    (h : cancelRoute order user reason cat = .ok (order', cat₂)) :
    cat₂ = restoreLines cat order.items
      ∧ order.status ≠ .delivered ∧ order.status ≠ .cancelled
        ∧ order.status ≠ .refunded := by
  unfold cancelRoute at h
  split at h
  · cases h
  · split at h
    · cases h
    · split at h
      · cases h
      · next hbad =>
        cases h
        push_neg at hbad
        exact ⟨rfl, hbad⟩

/-- C3 amended: cancellation adds back each line's requested quantity, so
after create-then-cancel every stock equals its pre-creation value exactly
when no decrement clamped during creation (each line found at least its
quantity in stock); when creation clamped, cancellation restores more than
was decremented (see the counterexample).  The gate holds as claimed: a
cancellation only succeeds from a status outside
{delivered, cancelled, refunded}. -/
theorem cancel_restores_stock :
    (∀ (req : CreateOrderRequest) (uid : Nat) (cat : Catalog)
        (order : Order) (cat₁ : Catalog) (user : Requester) (reason : String)
        (order' : Order) (cat₂ : Catalog),
        createOrder req uid cat = .ok (order, cat₁) →
        noClampCreate cat req.items = true →
        cancelRoute order user reason cat₁ = .ok (order', cat₂) →
        ∀ id, stockOf cat₂ id = stockOf cat id)
      ∧ (∀ (order : Order) (user : Requester) (reason : String)
          (cat : Catalog) (res : Order × Catalog),
          cancelRoute order user reason cat = .ok res →
          order.status ≠ .delivered ∧ order.status ≠ .cancelled
            ∧ order.status ≠ .refunded) := by
  constructor
  · intro req uid cat order cat₁ user reason order' cat₂ hco hnc hcr
    unfold createOrder at hco
    split at hco
    · cases hco
    · next hval =>
      split at hco
      · cases hco
      · split at hco
        · cases hco
        · cases hp : processItems cat req.items with
          | error e => rw [hp] at hco; cases hco
          | ok triple =>
            obtain ⟨ps, sub, catA⟩ := triple
            rw [hp] at hco
            cases hco
            obtain ⟨hc₂, -⟩ :=
              cancelRoute_ok_effect _ user reason _ order' cat₂ hcr
            obtain ⟨ih1, ih2, ih3⟩ :=
              processItems_noClamp_effect req.items cat ps sub _ hnc hp
            have hval' : validCreateRequest req = true := by
              revert hval; cases validCreateRequest req <;> simp
            have hvq : ∀ it ∈ req.items, 1 ≤ it.quantity := by
              unfold validCreateRequest at hval'
              simp only [Bool.and_eq_true, List.all_eq_true,
                decide_eq_true_eq] at hval'
              exact hval'.1.2
            have hq' :=
              processItems_quantities req.items cat ps sub _ hvq hp
            have hrest :=
              restoreLines_effect ps _
                (fun p hp' => by have := hq' p hp'; omega) ih3
            intro id
            rw [hc₂]
            show stockOf (restoreLines _ ps) id = stockOf cat id
            rw [hrest id, ih1 id]
            ring
  · intro order user reason cat res h
    obtain ⟨o', c₂⟩ := res
    exact (cancelRoute_ok_effect order user reason cat o' c₂ h).2

/-- Witness for C3: the sample order (2 of 50 units) is created and then
cancelled; item 1's stock returns to exactly 50. -/
theorem cancel_restores_stock_witness :
    createOrder sampleReq 7 sampleCat = .ok (sampleOrder, sampleCatAfter)
      ∧ noClampCreate sampleCat sampleReq.items = true
      ∧ cancelRoute sampleOrder (Requester.mk 7 .customer) "changed my mind"
          sampleCatAfter
        = .ok (cancelOrder sampleOrder "changed my mind" "customer",
            restoreLines sampleCatAfter sampleOrder.items)
      ∧ stockOf (restoreLines sampleCatAfter sampleOrder.items) 1
        = stockOf sampleCat 1 :=
  ⟨createOrder_sampleReq_eval, by decide, rfl,
   cancel_restores_stock.1 sampleReq 7 sampleCat sampleOrder sampleCatAfter
     (Requester.mk 7 .customer) "changed my mind"
     (cancelOrder sampleOrder "changed my mind" "customer")
     (restoreLines sampleCatAfter sampleOrder.items)
     createOrder_sampleReq_eval (by decide) rfl 1⟩

end Soley
